import Mathlib

/-!
Verification development for the RAG-chatbot-for-PDFs repository
(`ingest_all.py`, `chat.py`).

The two source files are thin orchestration over library collaborators
(langchain text splitter, HuggingFace embeddings, `InMemoryVectorStore`,
`pickle`, a Mistral chat model).  The development below embeds:

* the Chunker contract (spec §4.2/§8; the actual splitter is the external
  `RecursiveCharacterTextSplitter`), modelled from the spec as a sliding
  window of size `S` with stride `S - O`;
* index persistence (spec §4.4; the actual serializer is `pickle`),
  modelled from the spec as an executable encode/decode pair over a token
  stream;
* the control flow of `ingest_multiple_pdfs`, `ingest_pdf`,
  `load_vector_store` (ingest_all.py) over an abstract file-system oracle,
  recording the outcome and every file write;
* the control flow of `DocumentChatBot.search_and_respond` and one
  iteration of `DocumentChatBot.run_chat` (chat.py), with the retriever
  and the LLM as function-valued oracles and instrumentation recording
  whether each collaborator was invoked.
-/

/-! ## Chunker (spec §4.2, §8)

Modelled from the spec: the repository delegates splitting to langchain's
`RecursiveCharacterTextSplitter(chunk_size=1000, chunk_overlap=200)`
(ingest_all.py lines 77-82 and 134-139), whose code is not part of this
repository.  The spec's Chunker contract describes overlapping fixed-size
text windows: each chunk is at most `S` characters, and consecutive chunks
within the same page overlap by the configured overlap `O`. -/

/-- Modelled from the spec: the Chunker (langchain's splitter is the
missing code).  Emit the first `S` characters, then recurse on the text
with the first `S - O` characters removed, so consecutive chunks share
exactly `O` characters. -/
def chunkText (S O : Nat) (t : List Char) : List (List Char) :=
  if t = [] then []
  else if t.length ≤ S ∨ S ≤ O then [t]
  else t.take S :: chunkText S O (t.drop (S - O))
termination_by t.length
decreasing_by
  rename_i _h1 h2
  push_neg at h2
  simp only [List.length_drop]
  omega

/-- Reassemble a chunk sequence by removing the `O`-character overlapping
prefix of every chunk after the first and concatenating. -/
def joinOverlap (O : Nat) : List (List Char) → List Char
  | [] => []
  | c :: cs => c ++ (cs.map (List.drop O)).flatten

theorem chunkText_nil (S O : Nat) : chunkText S O [] = [] := by
  rw [chunkText]; simp

theorem chunkText_drop_flatten (S O : Nat) :
    ∀ t : List Char, ((chunkText S O t).map (List.drop O)).flatten = List.drop O t := by
  have H : ∀ (n : Nat) (t : List Char), t.length = n →
      ((chunkText S O t).map (List.drop O)).flatten = List.drop O t := by
    intro n
    induction n using Nat.strong_induction_on with
    | _ n ih =>
      intro t hn
      subst hn
      rw [chunkText]
      split
      · rename_i h; subst h; simp
      · split
        · simp
        · rename_i h1 h2
          push_neg at h2
          obtain ⟨hS, hSO⟩ := h2
          simp only [List.map_cons, List.flatten_cons]
          rw [ih (t.drop (S - O)).length (by simp only [List.length_drop]; omega) _ rfl]
          rw [List.drop_take, List.drop_drop]
          have e1 : S - O + O = S := by omega
          rw [e1]
          have e2 : List.drop S t = List.drop (S - O) (List.drop O t) := by
            rw [List.drop_drop]
            have e3 : O + (S - O) = S := by omega
            rw [e3]
          rw [e2, List.take_append_drop]
  intro t
  exact H t.length t rfl

theorem joinOverlap_chunkText (S O : Nat) (t : List Char) :
    joinOverlap O (chunkText S O t) = t := by
  rw [chunkText]
  split
  · rename_i h; subst h; rfl
  · split
    · simp [joinOverlap]
    · rename_i h1 h2
      push_neg at h2
      simp only [joinOverlap]
      rw [chunkText_drop_flatten S O]
      rw [List.drop_drop]
      have e1 : S - O + O = S := by omega
      rw [e1, List.take_append_drop]

/-- C1: For every input page text T, chunking with maximum chunk size
S = 1000 and overlap O = 200 (as configured in `ingest_all.py`) produces
an ordered sequence of chunks whose concatenation, with the overlapping
prefixes removed, reconstructs T exactly — no characters are lost at
chunk boundaries. -/
theorem chunking_reconstructs_text (t : List Char) :
    joinOverlap 200 (chunkText 1000 200 t) = t :=
  joinOverlap_chunkText 1000 200 t

/-! ## Data model (spec §3)

Langchain `Document`s carry a text payload and a metadata dictionary.  In
this pipeline the metadata holds the loader-provided source path and page
number, the `source_file` key added by `ingest_multiple_pdfs` (line 57),
and the `start_index` key added by the splitter (`add_start_index=True`,
lines 80 and 137). -/

structure Meta where
  source : String
  page : Nat
  source_file : Option String
  start_index : Option Nat
deriving DecidableEq, Repr

structure Doc where
  page_content : String
  metadata : Meta
deriving DecidableEq, Repr

/-- One entry of the `InMemoryVectorStore`: the chunk text, its metadata,
and its embedding vector (vector components modelled as integers). -/
structure Entry where
  text : String
  metadata : Meta
  vector : List Int
deriving DecidableEq, Repr

structure VectorStore where
  entries : List Entry
deriving DecidableEq, Repr

/-! ## Index persistence (spec §4.4, §8)

Modelled from the spec: the repository persists the index with
`pickle.dump` / `pickle.load` (ingest_all.py lines 101-102, 158-159,
178-179), whose code is not part of this repository.  The spec contract:
`save(path)` serializes the full index (all entries + vectors + metadata)
to a single file; `load(path)` reconstructs an equivalent index.  The
file is modelled as a token stream and the serializer as an executable
encode/decode pair. -/

inductive Tok where
  | nat : Nat → Tok
  | ch : Char → Tok
deriving DecidableEq, Repr

def encNat (n : Nat) : List Tok := [Tok.nat n]

def decNat : List Tok → Option (Nat × List Tok)
  | Tok.nat n :: r => some (n, r)
  | _ => none

def encChar (c : Char) : List Tok := [Tok.ch c]

def decChar : List Tok → Option (Char × List Tok)
  | Tok.ch c :: r => some (c, r)
  | _ => none

def encInt : Int → List Tok
  | Int.ofNat n => [Tok.nat 0, Tok.nat n]
  | Int.negSucc n => [Tok.nat 1, Tok.nat n]

def decInt : List Tok → Option (Int × List Tok)
  | Tok.nat 0 :: Tok.nat n :: r => some (Int.ofNat n, r)
  | Tok.nat 1 :: Tok.nat n :: r => some (Int.negSucc n, r)
  | _ => none

def encListTok (enc : α → List Tok) (xs : List α) : List Tok :=
  Tok.nat xs.length :: xs.flatMap enc

def decItems (dec : List Tok → Option (α × List Tok)) :
    Nat → List Tok → Option (List α × List Tok)
  | 0, r => some ([], r)
  | Nat.succ n, r =>
    (dec r).bind fun ar =>
      (decItems dec n ar.2).bind fun asr => some (ar.1 :: asr.1, asr.2)

def decListTok (dec : List Tok → Option (α × List Tok)) (toks : List Tok) :
    Option (List α × List Tok) :=
  (decNat toks).bind fun nr => decItems dec nr.1 nr.2

def encString (s : String) : List Tok := encListTok encChar s.data

def decString (toks : List Tok) : Option (String × List Tok) :=
  (decListTok decChar toks).bind fun csr => some (String.mk csr.1, csr.2)

def encOpt (enc : α → List Tok) : Option α → List Tok
  | none => [Tok.nat 0]
  | some x => Tok.nat 1 :: enc x

def decOpt (dec : List Tok → Option (α × List Tok)) :
    List Tok → Option (Option α × List Tok)
  | Tok.nat 0 :: r => some (none, r)
  | Tok.nat 1 :: r => (dec r).bind fun xr => some (some xr.1, xr.2)
  | _ => none

def encMeta (m : Meta) : List Tok :=
  encString m.source ++ encNat m.page ++ encOpt encString m.source_file ++
    encOpt encNat m.start_index

def decMeta (toks : List Tok) : Option (Meta × List Tok) :=
  (decString toks).bind fun srcr =>
    (decNat srcr.2).bind fun pgr =>
      (decOpt decString pgr.2).bind fun sfr =>
        (decOpt decNat sfr.2).bind fun sir =>
          some (⟨srcr.1, pgr.1, sfr.1, sir.1⟩, sir.2)

def encEntry (e : Entry) : List Tok :=
  encString e.text ++ encMeta e.metadata ++ encListTok encInt e.vector

def decEntry (toks : List Tok) : Option (Entry × List Tok) :=
  (decString toks).bind fun tr =>
    (decMeta tr.2).bind fun mr =>
      (decListTok decInt mr.2).bind fun vr =>
        some (⟨tr.1, mr.1, vr.1⟩, vr.2)

/-- Modelled from the spec: `save` — serialize the full index to a single
file (a token stream). -/
def saveStore (vs : VectorStore) : List Tok := encListTok encEntry vs.entries

/-- Modelled from the spec: `load` — reconstruct an index from a
persisted file. -/
def loadStore (f : List Tok) : Option VectorStore :=
  (decListTok decEntry f).bind fun esr =>
    match esr.2 with
    | [] => some ⟨esr.1⟩
    | _ :: _ => none

theorem decNat_enc (n : Nat) (r : List Tok) : decNat (encNat n ++ r) = some (n, r) := rfl

theorem decChar_enc (c : Char) (r : List Tok) : decChar (encChar c ++ r) = some (c, r) := rfl

theorem decInt_enc (i : Int) (r : List Tok) : decInt (encInt i ++ r) = some (i, r) := by
  cases i <;> rfl

theorem decItems_enc {α : Type} (enc : α → List Tok)
    (dec : List Tok → Option (α × List Tok))
    (h : ∀ x r, dec (enc x ++ r) = some (x, r)) :
    ∀ (xs : List α) (r : List Tok),
      decItems dec xs.length (xs.flatMap enc ++ r) = some (xs, r) := by
  intro xs
  induction xs with
  | nil => intro r; rfl
  | cons x xs ih =>
    intro r
    simp only [List.flatMap_cons, List.length_cons, List.append_assoc]
    show decItems dec (xs.length + 1) _ = _
    rw [decItems, h x (xs.flatMap enc ++ r)]
    simp only [Option.some_bind]
    rw [ih r]
    simp only [Option.some_bind]

theorem decListTok_enc {α : Type} (enc : α → List Tok)
    (dec : List Tok → Option (α × List Tok))
    (h : ∀ x r, dec (enc x ++ r) = some (x, r))
    (xs : List α) (r : List Tok) :
    decListTok dec (encListTok enc xs ++ r) = some (xs, r) := by
  simp only [encListTok, decListTok, List.cons_append]
  rw [show decNat (Tok.nat xs.length :: (xs.flatMap enc ++ r)) =
      some (xs.length, xs.flatMap enc ++ r) from rfl]
  simp only [Option.some_bind]
  exact decItems_enc enc dec h xs r

theorem decString_enc (s : String) (r : List Tok) :
    decString (encString s ++ r) = some (s, r) := by
  simp only [encString, decString]
  rw [decListTok_enc encChar decChar decChar_enc s.data r]
  simp only [Option.some_bind]

theorem decOpt_enc {α : Type} (enc : α → List Tok)
    (dec : List Tok → Option (α × List Tok))
    (h : ∀ x r, dec (enc x ++ r) = some (x, r))
    (o : Option α) (r : List Tok) :
    decOpt dec (encOpt enc o ++ r) = some (o, r) := by
  cases o with
  | none => rfl
  | some x =>
    simp only [encOpt, List.cons_append]
    rw [decOpt, h x r]
    simp only [Option.some_bind]

theorem decMeta_enc (m : Meta) (r : List Tok) :
    decMeta (encMeta m ++ r) = some (m, r) := by
  simp only [encMeta, decMeta, List.append_assoc]
  rw [decString_enc]
  simp only [Option.some_bind]
  rw [decNat_enc]
  simp only [Option.some_bind]
  rw [decOpt_enc encString decString decString_enc]
  simp only [Option.some_bind]
  rw [decOpt_enc encNat decNat decNat_enc]
  simp only [Option.some_bind]

theorem decEntry_enc (e : Entry) (r : List Tok) :
    decEntry (encEntry e ++ r) = some (e, r) := by
  simp only [encEntry, decEntry, List.append_assoc]
  rw [decString_enc]
  simp only [Option.some_bind]
  rw [decMeta_enc]
  simp only [Option.some_bind]
  rw [decListTok_enc encInt decInt decInt_enc]
  simp only [Option.some_bind]

theorem loadStore_saveStore (vs : VectorStore) :
    loadStore (saveStore vs) = some vs := by
  simp only [saveStore, loadStore]
  rw [show encListTok encEntry vs.entries =
      encListTok encEntry vs.entries ++ [] from (List.append_nil _).symm]
  rw [decListTok_enc encEntry decEntry decEntry_enc vs.entries []]
  simp only [Option.some_bind]

/-- C2: For every Vector Index state, saving it to a path and then
loading from that path yields a structurally equivalent index: identical
entry count, identical chunk texts and metadata, and identical vectors. -/
theorem save_load_equivalent (vs : VectorStore) :
    ∃ vs', loadStore (saveStore vs) = some vs' ∧
      vs'.entries.length = vs.entries.length ∧
      vs'.entries.map Entry.text = vs.entries.map Entry.text ∧
      vs'.entries.map Entry.metadata = vs.entries.map Entry.metadata ∧
      vs'.entries.map Entry.vector = vs.entries.map Entry.vector :=
  ⟨vs, loadStore_saveStore vs, rfl, rfl, rfl, rfl⟩

/-! ## Ingestion (`ingest_all.py`)

The three functions are embedded over an abstract file-system oracle:
`pathExists` models `os.path.exists`, `pdfFiles` models
`glob.glob(os.path.join(folder, "*.pdf"))`, `loadPdf` models
`PDFPlumberLoader(path).load()` (`none` = the loader raised), and
`readFile` models the bytes at a path.  The embedding function of
`HuggingFaceEmbeddings` is a parameter.  Each ingestion function returns
its outcome together with the list of file writes it performed. -/

structure FileSystem where
  pathExists : String → Bool
  pdfFiles : String → List String
  loadPdf : String → Option (List Doc)
  readFile : String → List Tok

/-- Observable outcomes of `ingest_multiple_pdfs`.  `emptyInputError` is
the spec's §7 taxonomy item for "no matching documents found"; it is part
of the observation language so the spec's claim can be stated against the
code. -/
inductive IngestOutcome where
  | fileNotFoundError (msg : String)
  | emptyInputError
  | returnedNone
  | returnedStore (vs : VectorStore)
deriving DecidableEq, Repr

/-- `os.path.basename` for the forward-slash paths used in this repo. -/
def basename (p : String) : String := (p.splitOn "/").getLastD p

/-- ingest_all.py lines 56-57: `doc.metadata["source_file"] = filename`. -/
def setSourceFile (fname : String) (d : Doc) : Doc :=
  { d with metadata := { d.metadata with source_file := some fname } }

/-- The splitter applied to one page: chunk its text (spec-modelled
Chunker, size 1000 / overlap 200) and record each chunk's start offset
(`add_start_index=True`); chunk `i` starts at `i * (1000 - 200)`. -/
def splitDoc (d : Doc) : List Doc :=
  (chunkText 1000 200 d.page_content.data).enum.map fun ic =>
    { page_content := String.mk ic.2,
      metadata := { d.metadata with start_index := some (ic.1 * (1000 - 200)) } }

/-- `text_splitter.split_documents(docs)`. -/
def split_documents (docs : List Doc) : List Doc := docs.flatMap splitDoc

/-- `InMemoryVectorStore(embeddings)` + `add_documents`: one entry per
chunk, with the chunk's embedding vector. -/
def add_documents (embed : String → List Int) (docs : List Doc) : VectorStore :=
  ⟨docs.map fun d =>
    { text := d.page_content, metadata := d.metadata,
      vector := embed d.page_content }⟩

/-- `ingest_multiple_pdfs(data_folder, vector_store_path)`
(ingest_all.py lines 14-107). -/
def ingest_multiple_pdfs (embed : String → List Int) (fs : FileSystem)
    (data_folder : String) (vector_store_path : String) :
    IngestOutcome × List (String × List Tok) :=
  if fs.pathExists data_folder then
    let pdf_files := fs.pdfFiles data_folder
    if pdf_files = [] then (.returnedNone, [])
    else
      let all_documents := pdf_files.flatMap fun p =>
        match fs.loadPdf p with
        | none => []
        | some docs => docs.map (setSourceFile (basename p))
      if all_documents = [] then (.returnedNone, [])
      else
        let all_splits := split_documents all_documents
        let vector_store := add_documents embed all_splits
        (.returnedStore vector_store,
          [(vector_store_path, saveStore vector_store)])
  else (.fileNotFoundError ("Data folder not found: " ++ data_folder), [])

/-- Observable outcomes of `ingest_pdf`. -/
inductive SingleIngestOutcome where
  | fileNotFoundError (msg : String)
  | raisedLoadError
  | raisedIndexError
  | returnedStore (vs : VectorStore)
deriving DecidableEq, Repr

/-- `ingest_pdf(file_path, vector_store_path)` (ingest_all.py lines
109-162).  The loader call is not wrapped in try/except here, so a loader
failure propagates; `docs[0]` on an empty page list raises IndexError
(line 130). -/
def ingest_pdf (embed : String → List Int) (fs : FileSystem)
    (file_path : String) (vector_store_path : String) :
    SingleIngestOutcome × List (String × List Tok) :=
  if fs.pathExists file_path then
    match fs.loadPdf file_path with
    | none => (.raisedLoadError, [])
    | some [] => (.raisedIndexError, [])
    | some (d :: docs) =>
      let all_splits := split_documents (d :: docs)
      let vector_store := add_documents embed all_splits
      (.returnedStore vector_store,
        [(vector_store_path, saveStore vector_store)])
  else (.fileNotFoundError ("PDF file not found: " ++ file_path), [])

/-- Observable outcomes of `load_vector_store`. -/
inductive LoadOutcome where
  | fileNotFoundError (msg : String)
  | raisedUnpickleError
  | loaded (vs : VectorStore)
deriving DecidableEq, Repr

/-- `load_vector_store(vector_store_path)` (ingest_all.py lines 164-182). -/
def load_vector_store (fs : FileSystem) (vector_store_path : String) :
    LoadOutcome :=
  if fs.pathExists vector_store_path then
    match loadStore (fs.readFile vector_store_path) with
    | none => .raisedUnpickleError
    | some vs => .loaded vs
  else .fileNotFoundError ("Vector store not found: " ++ vector_store_path)

/-- C6: For every path that does not exist on the filesystem, ingestion
(single-file or directory mode) and Vector Index load each fail with the
not-found error (`FileNotFoundError` in the code, spec's `NotFoundError`). -/
theorem missing_path_not_found (embed : String → List Int) (fs : FileSystem)
    (p out : String) (h : fs.pathExists p = false) :
    (ingest_multiple_pdfs embed fs p out).1 =
      IngestOutcome.fileNotFoundError ("Data folder not found: " ++ p) ∧
    (ingest_pdf embed fs p out).1 =
      SingleIngestOutcome.fileNotFoundError ("PDF file not found: " ++ p) ∧
    load_vector_store fs p =
      LoadOutcome.fileNotFoundError ("Vector store not found: " ++ p) := by
  simp [ingest_multiple_pdfs, ingest_pdf, load_vector_store, h]

/-- A file system with no paths at all. -/
def fsBare : FileSystem :=
  { pathExists := fun _ => false, pdfFiles := fun _ => [],
    loadPdf := fun _ => none, readFile := fun _ => [] }

theorem missing_path_not_found_witness :
    (ingest_multiple_pdfs (fun _ => []) fsBare "data" "vectordb/vector_store_all.pkl").1 =
      IngestOutcome.fileNotFoundError ("Data folder not found: " ++ "data") ∧
    (ingest_pdf (fun _ => []) fsBare "data" "vectordb/vector_store_all.pkl").1 =
      SingleIngestOutcome.fileNotFoundError ("PDF file not found: " ++ "data") ∧
    load_vector_store fsBare "data" =
      LoadOutcome.fileNotFoundError ("Vector store not found: " ++ "data") :=
  missing_path_not_found (fun _ => []) fsBare "data" "vectordb/vector_store_all.pkl" rfl

/-- A file system with an existing `data` directory that contains no PDF
files. -/
def fsEmptyDir : FileSystem :=
  { pathExists := fun p => p == "data", pdfFiles := fun _ => [],
    loadPdf := fun _ => none, readFile := fun _ => [] }

/-- C3 counterexample: on an existing directory with no matching PDF
files, `ingest_multiple_pdfs` does not produce the spec's
`EmptyInputError` (it prints a warning and returns `None`,
ingest_all.py lines 33-35). -/
theorem empty_dir_no_emptyInputError :
    (ingest_multiple_pdfs (fun _ => []) fsEmptyDir "data"
      "vectordb/vector_store_all.pkl").1 ≠ IngestOutcome.emptyInputError := by
  decide

/-- C3 (amended): For every directory path that exists but contains no
files matching the PDF extension filter, batch ingestion signals failure
by returning `None` (after printing a warning) and performs no writes; it
does not raise. -/
theorem empty_dir_returns_none (embed : String → List Int) (fs : FileSystem)
    (folder out : String) (h1 : fs.pathExists folder = true)
    (h2 : fs.pdfFiles folder = []) :
    ingest_multiple_pdfs embed fs folder out = (IngestOutcome.returnedNone, []) := by
  simp [ingest_multiple_pdfs, h1, h2]

theorem empty_dir_returns_none_witness :
    ingest_multiple_pdfs (fun _ => []) fsEmptyDir "data"
      "vectordb/vector_store_all.pkl" = (IngestOutcome.returnedNone, []) :=
  empty_dir_returns_none (fun _ => []) fsEmptyDir "data"
    "vectordb/vector_store_all.pkl" (by decide) rfl

/-- C10: If batch ingestion finds PDF files but every one of them fails
to load, `ingest_multiple_pdfs` returns `None` and never reaches the save
step: no vector-store file is written. -/
theorem total_load_failure_no_write (embed : String → List Int)
    (fs : FileSystem) (folder out : String)
    (h1 : fs.pathExists folder = true)
    (h2 : fs.pdfFiles folder ≠ [])
    (h3 : ∀ p ∈ fs.pdfFiles folder, fs.loadPdf p = none) :
    ingest_multiple_pdfs embed fs folder out = (IngestOutcome.returnedNone, []) := by
  have hdocs : (fs.pdfFiles folder).flatMap (fun p =>
      match fs.loadPdf p with
      | none => []
      | some docs => docs.map (setSourceFile (basename p))) = ([] : List Doc) := by
    rw [List.flatMap_eq_nil_iff]
    intro p hp
    rw [h3 p hp]
  simp only [ingest_multiple_pdfs, h1, if_true]
  rw [if_neg h2, hdocs]
  simp

/-- A file system whose `data` directory holds one PDF that always fails
to load. -/
def fsFailingPdf : FileSystem :=
  { pathExists := fun p => p == "data",
    pdfFiles := fun p => if p == "data" then ["data/a.pdf"] else [],
    loadPdf := fun _ => none, readFile := fun _ => [] }

theorem total_load_failure_no_write_witness :
    ingest_multiple_pdfs (fun _ => []) fsFailingPdf "data"
      "vectordb/vector_store_all.pkl" = (IngestOutcome.returnedNone, []) :=
  total_load_failure_no_write (fun _ => []) fsFailingPdf "data"
    "vectordb/vector_store_all.pkl" (by decide) (by decide)
    (by intro p _; rfl)

/-! ## Chat (`chat.py`)

`DocumentChatBot.search_and_respond` and one iteration of the `run_chat`
loop, with the retriever and the LLM as function-valued oracles.  The
trace records the result together with whether each collaborator was
invoked (and with what input), so "no retrieval call" / "no completion
call" claims are statable. -/

inductive ChatMsg where
  | system (content : String)
  | human (content : String)
deriving DecidableEq, Repr

inductive GenErr where
  | generationError (msg : String)
deriving DecidableEq, Repr

/-- `DocumentChatBot.get_system_prompt` (chat.py lines 31-57). -/
def get_system_prompt : String :=
  "You are a highly qualified personal assistance with expertise in:\n\n🔍 **travel planning:**\n\n🔍 **Conference schedule:**\n\n📋 **Response Guidelines:**\n- Provide precise, technical answers based strictly on the document content\n- When citing measurements, time schedules, include exact values with units \n- For coordinate data, specify the reference system if available\n- Explain technical terms when they might be unclear\n- If multiple interpretations exist, present them clearly\n- Always indicate your confidence level in the answer\n\n⚠️ **Important Instructions:**\n- If information is not in the provided context, clearly state \"This information is not available in the document\"\n- For ambiguous queries, ask for clarification\n- When discussing depths, always specify whether it\x27s Measured Depth (MD), True Vertical Depth (TVD), or Total Depth (TD)\n- Reference specific sections of the document when possible\n\n🎯 **Answer Structure:**\n1. Direct answer to the question\n2. Supporting details from the document\n\nUse the provided context to answer questions accurately and professionally."

/-- chat.py line 68. -/
def noRelevantInfoMsg : String :=
  "❌ No relevant information found in the document for your question."

/-- chat.py line 71: `"\n".join(doc.page_content for doc in context_docs)`. -/
def context_text (context_docs : List Doc) : String :=
  String.intercalate "\n" (context_docs.map Doc.page_content)

/-- chat.py lines 76-81: the f-string forming the human message. -/
def humanPrompt (question : String) (context_docs : List Doc) : String :=
  "**Document Context:**\n" ++ context_text context_docs ++
    "\n\n**Question:** " ++ question ++
    "\n\nPlease provide a comprehensive answer based on the document content above."

/-- chat.py lines 74-82: the message list sent to the LLM. -/
def buildMessages (question : String) (context_docs : List Doc) : List ChatMsg :=
  [ChatMsg.system get_system_prompt, ChatMsg.human (humanPrompt question context_docs)]

structure RespondTrace where
  result : Except GenErr String
  retrievalCalled : Bool
  llmInput : Option (List ChatMsg)

/-- `DocumentChatBot.search_and_respond` (chat.py lines 59-88),
instrumented.  `retrieve` is the retriever oracle (`retriever.batch`
applied to one question returns one list per question; `chain` flattens);
`llm` is `self.llm.invoke`, whose failure is a `GenerationError`. -/
def search_and_respond_trace (retrieve : String → List Doc)
    (llm : List ChatMsg → Except GenErr String) (question : String) :
    RespondTrace :=
  let context := [question].map retrieve
  let context_docs := context.flatten
  if context_docs = [] then
    { result := .ok noRelevantInfoMsg, retrievalCalled := true, llmInput := none }
  else
    let messages := buildMessages question context_docs
    { result := llm messages, retrievalCalled := true, llmInput := some messages }

/-- The value `search_and_respond` returns (or the exception it
propagates). -/
def search_and_respond (retrieve : String → List Doc)
    (llm : List ChatMsg → Except GenErr String) (question : String) :
    Except GenErr String :=
  (search_and_respond_trace retrieve llm question).result

/-- C4: For every query whose retrieval returns zero chunks, the
retrieval path yields the explicit "no relevant information" message to
the user rather than raising an error or returning an empty success. -/
theorem empty_retrieval_no_info (retrieve : String → List Doc)
    (llm : List ChatMsg → Except GenErr String) (question : String)
    (h : retrieve question = []) :
    search_and_respond retrieve llm question = .ok noRelevantInfoMsg := by
  simp [search_and_respond, search_and_respond_trace, h]

theorem empty_retrieval_no_info_witness :
    search_and_respond (fun _ => []) (fun _ => .error (.generationError "down"))
      "what is the TD?" = .ok noRelevantInfoMsg :=
  empty_retrieval_no_info (fun _ => [])
    (fun _ => .error (.generationError "down")) "what is the TD?" rfl

/-- C9: For every question whose retrieval returns zero chunks, the LLM
completion service is never invoked: `search_and_respond` returns the "no
relevant information" message before any LLM call, for every possible LLM
behaviour — so an empty retrieval can never produce a GenerationError. -/
theorem empty_retrieval_no_llm_call (retrieve : String → List Doc)
    (question : String) (h : retrieve question = []) :
    ∀ llm : List ChatMsg → Except GenErr String,
      (search_and_respond_trace retrieve llm question).llmInput = none ∧
      search_and_respond retrieve llm question = .ok noRelevantInfoMsg := by
  intro llm
  constructor
  · simp [search_and_respond_trace, h]
  · simp [search_and_respond, search_and_respond_trace, h]

theorem empty_retrieval_no_llm_call_witness :
    (search_and_respond_trace (fun _ => [])
        (fun _ => .error (.generationError "quota")) "schedule?").llmInput = none ∧
    search_and_respond (fun _ => [])
        (fun _ => .error (.generationError "quota")) "schedule?" =
      .ok noRelevantInfoMsg :=
  empty_retrieval_no_llm_call (fun _ => []) "schedule?" rfl
    (fun _ => .error (.generationError "quota"))

/-- C7: For every query and non-empty Retrieved Context, the Answer
Composer builds the context block as exactly the newline-joined raw texts
of the retrieved chunks in retrieval order, and the request it sends to
the LLM consists of the fixed system instruction, that context block, and
the user's question. -/
theorem composer_request_structure (retrieve : String → List Doc)
    (llm : List ChatMsg → Except GenErr String) (question : String)
    (h : retrieve question ≠ []) :
    (search_and_respond_trace retrieve llm question).llmInput =
      some [ChatMsg.system get_system_prompt,
        ChatMsg.human ("**Document Context:**\n" ++
          String.intercalate "\n" ((retrieve question).map Doc.page_content) ++
          "\n\n**Question:** " ++ question ++
          "\n\nPlease provide a comprehensive answer based on the document content above.")] := by
  simp [search_and_respond_trace, h, buildMessages, humanPrompt, context_text]

/-- A two-chunk retrieval result used to instantiate `composer_request_structure`. -/
def twoDocs : List Doc :=
  [{ page_content := "Alpha",
     metadata := { source := "data/a.pdf", page := 0,
                   source_file := some "a.pdf", start_index := some 0 } },
   { page_content := "Beta",
     metadata := { source := "data/a.pdf", page := 1,
                   source_file := some "a.pdf", start_index := some 0 } }]

theorem composer_request_structure_witness :
    (search_and_respond_trace (fun _ => twoDocs)
        (fun _ => .ok "ans") "what is Alpha?").llmInput =
      some [ChatMsg.system get_system_prompt,
        ChatMsg.human ("**Document Context:**\n" ++
          String.intercalate "\n" (twoDocs.map Doc.page_content) ++
          "\n\n**Question:** " ++ "what is Alpha?" ++
          "\n\nPlease provide a comprehensive answer based on the document content above.")] :=
  composer_request_structure (fun _ => twoDocs) (fun _ => .ok "ans")
    "what is Alpha?" (by decide)

/-- Python's `str.strip()`: remove leading and trailing whitespace. -/
def pyStrip (s : String) : String :=
  String.mk ((s.data.dropWhile Char.isWhitespace).reverse.dropWhile
    Char.isWhitespace).reverse

/-- Python's `str.lower()`. -/
def pyLower (s : String) : String := String.mk (s.data.map Char.toLower)

/-- One event read by the `run_chat` loop: a line from `input()` or a
KeyboardInterrupt. -/
inductive LoopEvent where
  | interrupt
  | line (s : String)
deriving DecidableEq, Repr

/-- What one iteration of the `run_chat` loop observably does. -/
structure StepResult where
  exits : Bool
  welcomeShown : Bool
  retrievalCalled : Bool
  llmCalled : Bool
  errorReported : Bool
  printedAnswer : Option String
deriving DecidableEq, Repr

/-- One iteration of `DocumentChatBot.run_chat`'s `while True` body
(chat.py lines 122-153): strip the input; ignore empty input; break on
the case-insensitive exit commands; redisplay the welcome text on
`help`; otherwise run `search_and_respond`, printing its answer, and
catch any exception it raises, report it, and continue. -/
def loopStep (retrieve : String → List Doc)
    (llm : List ChatMsg → Except GenErr String) : LoopEvent → StepResult
  | .interrupt =>
    { exits := true, welcomeShown := false, retrievalCalled := false,
      llmCalled := false, errorReported := false, printedAnswer := none }
  | .line s =>
    let question := pyStrip s
    if question = "" then
      { exits := false, welcomeShown := false, retrievalCalled := false,
        llmCalled := false, errorReported := false, printedAnswer := none }
    else if ["quit", "exit", "bye"].contains (pyLower question) then
      { exits := true, welcomeShown := false, retrievalCalled := false,
        llmCalled := false, errorReported := false, printedAnswer := none }
    else if pyLower question = "help" then
      { exits := false, welcomeShown := true, retrievalCalled := false,
        llmCalled := false, errorReported := false, printedAnswer := none }
    else
      let t := search_and_respond_trace retrieve llm question
      match t.result with
      | .ok answer =>
        { exits := false, welcomeShown := false, retrievalCalled := true,
          llmCalled := t.llmInput.isSome, errorReported := false,
          printedAnswer := some answer }
      | .error _ =>
        { exits := false, welcomeShown := false, retrievalCalled := true,
          llmCalled := t.llmInput.isSome, errorReported := true,
          printedAnswer := none }

/-- C5: For every exception raised while processing a question inside
the session loop (any input that is neither empty, nor an exit command,
nor `help`, nor a KeyboardInterrupt), the loop does not terminate: the
error is caught, reported as a plain message, and the loop continues. -/
theorem session_error_continues (retrieve : String → List Doc)
    (llm : List ChatMsg → Except GenErr String) (s : String) (e : GenErr)
    (h1 : pyStrip s ≠ "")
    (h2 : (["quit", "exit", "bye"].contains (pyLower (pyStrip s))) = false)
    (h3 : pyLower (pyStrip s) ≠ "help")
    (h4 : search_and_respond retrieve llm (pyStrip s) = .error e) :
    (loopStep retrieve llm (.line s)).exits = false ∧
    (loopStep retrieve llm (.line s)).errorReported = true := by
  simp only [loopStep, if_neg h1, h2, Bool.false_eq_true, if_false, if_neg h3]
  rw [show (search_and_respond_trace retrieve llm (pyStrip s)).result =
      search_and_respond retrieve llm (pyStrip s) from rfl, h4]
  exact ⟨rfl, rfl⟩

theorem session_error_continues_witness :
    (loopStep (fun _ => twoDocs)
        (fun _ => .error (.generationError "network")) (.line "what is Beta?")).exits
      = false ∧
    (loopStep (fun _ => twoDocs)
        (fun _ => .error (.generationError "network")) (.line "what is Beta?")).errorReported
      = true :=
  session_error_continues (fun _ => twoDocs)
    (fun _ => .error (.generationError "network")) "what is Beta?"
    (.generationError "network") (by decide) (by decide) (by decide) rfl

/-- C8: For every session state, an input whose stripped, lowercased
form is `help` redisplays the welcome/usage text and does not consume a
query cycle: the loop continues, and no retrieval call and no completion
call is made for that input. -/
theorem help_redisplays_welcome (retrieve : String → List Doc)
    (llm : List ChatMsg → Except GenErr String) (s : String)
    (h : pyLower (pyStrip s) = "help") :
    loopStep retrieve llm (.line s) =
      { exits := false, welcomeShown := true, retrievalCalled := false,
        llmCalled := false, errorReported := false, printedAnswer := none } := by
  have hne : pyStrip s ≠ "" := by
    intro h0
    rw [h0] at h
    exact absurd h (by decide)
  have hq : (["quit", "exit", "bye"].contains (pyLower (pyStrip s))) = false := by
    rw [h]; decide
  simp only [loopStep, if_neg hne, hq, Bool.false_eq_true, if_false, if_pos h]

theorem help_redisplays_welcome_witness :
    loopStep (fun _ => twoDocs) (fun _ => .ok "ans") (.line "  HELP ") =
      { exits := false, welcomeShown := true, retrievalCalled := false,
        llmCalled := false, errorReported := false, printedAnswer := none } :=
  help_redisplays_welcome (fun _ => twoDocs) (fun _ => .ok "ans") "  HELP "
    (by decide)
